import Mathlib

/-!
Shallow embedding of the FrankenStack protocol adapters
(backend/src/adapters/restToGraphQLAdapter.js and
backend/src/adapters/graphqlToRestAdapter.js) and proofs about them.

JavaScript values are modelled with Option for possibly-absent fields,
Except for thrown errors, and explicit truthiness helpers for the
source's falsiness checks.  Remote HTTP interaction is modelled by
passing the fetch outcome (status, headers, decoded body) as input.
-/

namespace Frankenstack

/-- Models JavaScript truthiness of a possibly-absent string: absent and
the empty string are falsy. -/
def truthyStr : Option String → Bool
  | none => false
  | some s => s ≠ ""

/-- Models JavaScript truthiness of a possibly-absent non-negative
integer: absent and zero are falsy. -/
def truthyNat : Option Nat → Bool
  | none => false
  | some n => n ≠ 0

/-- Models the JavaScript idiom `v || dflt` on a possibly-absent string:
the default is used when the value is absent or empty. -/
def jsOr (v : Option String) (dflt : String) : String :=
  match v with
  | none => dflt
  | some s => if s = "" then dflt else s

/-- Models a JavaScript template-literal rendering of a possibly-absent
string, which prints the text undefined for a missing value. -/
def jsTemplate : Option String → String
  | some s => s
  | none => "undefined"

/-- Splitting a character list on the space character, keeping empty
segments; auxiliary to splitOnSpaceJS. -/
def splitChars : List Char → List Char → List String
  | [], acc => [String.mk acc.reverse]
  | c :: cs, acc =>
    if c = ' ' then String.mk acc.reverse :: splitChars cs []
    else splitChars cs (c :: acc)

/-- Models the JavaScript fullName.split(' ') call: splits on every
single space, keeping empty segments, and maps the empty string to a
one-element list holding the empty string. -/
def splitOnSpaceJS (s : String) : List String := splitChars s.data []

/-- Models Array.prototype.join(' ') on a list of strings. -/
def joinWithSpace : List String → String
  | [] => ""
  | [s] => s
  | s :: rest => s ++ " " ++ joinWithSpace rest

/-- Models String.prototype.toUpperCase() on the ASCII strings the
adapters handle. -/
def toUpperJS (s : String) : String :=
  String.mk (s.data.map fun c =>
    if 'a' ≤ c ∧ c ≤ 'z' then Char.ofNat (c.toNat - 32) else c)

/-- Models JavaScript parseInt(s, 10): leading whitespace is skipped, an
optional sign is read, then the longest run of decimal digits; the result
is NaN (modelled as none) when no digit is found. -/
def parseIntJS (s : String) : Option Int :=
  let cs := s.data.dropWhile (fun c => c = ' ' || c = '\t' || c = '\n' || c = '\r')
  let signed : Int × List Char :=
    match cs with
    | '-' :: r => (-1, r)
    | '+' :: r => (1, r)
    | r => (1, r)
  let ds := signed.2.takeWhile Char.isDigit
  if ds.isEmpty then none
  else some (signed.1 * ((ds.foldl (fun acc c => acc * 10 + (c.toNat - 48)) 0 : Nat) : Int))

/-- One decimal digit character. -/
def digitChar (d : Nat) : Char := Char.ofNat (48 + d % 10)

/-- Two-digit zero-padded decimal rendering of m % 100. -/
def twoDigitString (m : Nat) : String :=
  String.mk [digitChar (m / 10 % 10), digitChar m]

/-- Models `(cents / 100).toFixed(2)` from the source's money handling for
a non-negative integer minor-unit amount: for such amounts within the
float-exact range the JavaScript expression produces exactly the decimal
string of cents divided by 100 with two fractional digits. -/
def centsToFixed2 (cents : Nat) : String :=
  toString (cents / 100) ++ "." ++ twoDigitString (cents % 100)

/-- One entry of a GraphQL errors or userErrors list; only the message is
observable to the adapters. -/
structure GqlErrorItem where
  message : String
deriving Repr, DecidableEq

/-- Outcome of a fetch call: an HTTP response carrying a decoded JSON body
of type β, or a network-level failure (fetch or body decoding threw). -/
inductive FetchOutcome (β : Type) where
  | response (status : Nat) (statusText : String) (body : β)
  | networkFailure (message : String)
deriving Repr, DecidableEq

/-- The uniform result envelope returned by both orchestrators.  The
metadata block (protocol labels and wall-clock timestamps) is outside the
model.  A JavaScript field holding undefined is modelled as none. -/
structure TranslationResult (α : Type) (ε : Type) where
  success : Bool
  data : Option α
  error : Option ε
deriving Repr, DecidableEq

/-- Decidable equality for Except, used to evaluate the embedding on
concrete inputs. -/
instance {ε α : Type} [DecidableEq ε] [DecidableEq α] : DecidableEq (Except ε α) := fun x y =>
  match x, y with
  | .ok a, .ok b =>
    if h : a = b then .isTrue (by rw [h]) else .isFalse (by simp [h])
  | .error a, .error b =>
    if h : a = b then .isTrue (by rw [h]) else .isFalse (by simp [h])
  | .ok _, .error _ => .isFalse (by simp)
  | .error _, .ok _ => .isFalse (by simp)

end Frankenstack

namespace Frankenstack.RestToGraphQL

/-- The customer object of a Stripe payment_intent payload. -/
structure StripeCustomer where
  email : Option String
  name : Option String
deriving Repr, DecidableEq

/-- The metadata object of a Stripe payment_intent payload.  Stripe
metadata values are strings; a numeric JSON value coerces to its decimal
string under parseInt, so the string model also covers that case. -/
structure StripeMetadata where
  product_id : Option String
  quantity : Option String
deriving Repr, DecidableEq

/-- The data.object part of a Stripe webhook payload.  Amounts are
non-negative integer minor units. -/
structure PaymentIntent where
  id : Option String
  amount : Option Nat
  currency : Option String
  customer : Option StripeCustomer
  metadata : Option StripeMetadata
deriving Repr, DecidableEq

/-- The data part of a Stripe webhook payload. -/
structure StripeData where
  object : Option PaymentIntent
deriving Repr, DecidableEq

/-- A Stripe webhook payload as consumed by restToGraphQLAdapter.js.
A null or non-object payload is modelled as none at the use sites. -/
structure StripePayload where
  type : Option String
  data : Option StripeData
deriving Repr, DecidableEq

/-- The ValidationError thrown by validatePayload: message and field. -/
structure ValidationErr where
  message : String
  field : String
deriving Repr, DecidableEq

/-- Models validatePayload of restToGraphQLAdapter.js: the sequence of
falsiness checks in source order, returning the thrown ValidationError. -/
def validatePayload (payload : Option StripePayload) : Except ValidationErr Unit :=
  match payload with
  | none => .error ⟨"Payload must be a valid object", "payload"⟩
  | some p =>
    if ¬ truthyStr p.type then
      .error ⟨"Missing required field: type", "type"⟩
    else
      match p.data.bind (·.object) with
      | none => .error ⟨"Missing required field: data.object", "data.object"⟩
      | some pi =>
        if p.type ≠ some "payment_intent.succeeded" then
          .error ⟨"Unsupported event type: " ++ jsTemplate p.type ++
                  ". Expected: payment_intent.succeeded", "type"⟩
        else if ¬ truthyNat pi.amount then
          .error ⟨"Missing required field: data.object.amount", "amount"⟩
        else if ¬ truthyStr pi.currency then
          .error ⟨"Missing required field: data.object.currency", "currency"⟩
        else
          match pi.customer with
          | none => .error ⟨"Missing required field: data.object.customer.email", "customer.email"⟩
          | some c =>
            if ¬ truthyStr c.email then
              .error ⟨"Missing required field: data.object.customer.email", "customer.email"⟩
            else .ok ()

/-- The GraphQL variables object produced by transformStripeToShopify.
quantity is the parseInt result, with none modelling NaN. -/
structure ShopifyVariables where
  email : String
  firstName : String
  lastName : String
  totalPrice : String
  currency : String
  productId : String
  quantity : Option Int
  stripePaymentId : String
deriving Repr, DecidableEq

/-- The data.object accessor used throughout the transform. -/
def paymentObject (p : StripePayload) : Option PaymentIntent :=
  p.data.bind (·.object)

/-- Models transformStripeToShopify of restToGraphQLAdapter.js (the
customMappings parameter only feeds an unused local table in the source,
so it does not affect the produced variables).  Notes on idioms:
`|| ''` is the identity on a defined string, so lastName is the plain
join; `amount || 0` yields the amount also when it is zero. -/
def transformStripeToShopify (p : StripePayload) : ShopifyVariables :=
  let obj := paymentObject p
  let email := jsOr ((obj.bind (·.customer)).bind (·.email)) ""
  let fullName := jsOr ((obj.bind (·.customer)).bind (·.name)) "Customer"
  let nameParts := splitOnSpaceJS fullName
  let firstName := jsOr nameParts.head? "Customer"
  let lastName := joinWithSpace (nameParts.drop 1)
  let amountInCents := (obj.bind (·.amount)).getD 0
  let totalPrice := centsToFixed2 amountInCents
  let currency := toUpperJS (jsOr (obj.bind (·.currency)) "USD")
  let productId := jsOr ((obj.bind (·.metadata)).bind (·.product_id)) ""
  let quantity := parseIntJS (jsOr ((obj.bind (·.metadata)).bind (·.quantity)) "1")
  let stripePaymentId := jsOr (obj.bind (·.id)) ""
  ⟨email, firstName, lastName, totalPrice, currency, productId, quantity, stripePaymentId⟩

/-- The mutation document built by buildShopifyOrderMutation is one fixed
static string in the source; the embedding represents it by its operation
name and declared variable names, which is all downstream code observes. -/
structure MutationDocument where
  operationName : String
  declaredVariables : List String
deriving Repr, DecidableEq

/-- Models buildShopifyOrderMutation of restToGraphQLAdapter.js. -/
def buildShopifyOrderMutation : MutationDocument :=
  ⟨"CreateOrderFromStripe",
   ["email", "firstName", "lastName", "totalPrice", "currency",
    "productId", "quantity", "stripePaymentId"]⟩

/-- The orderCreate part of a decoded GraphQL response body. -/
structure OrderCreateResult where
  userErrors : Option (List GqlErrorItem)
deriving Repr, DecidableEq

/-- The data part of a decoded GraphQL response body for this adapter. -/
structure GqlData where
  orderCreate : Option OrderCreateResult
deriving Repr, DecidableEq

/-- A decoded GraphQL response body: optional data and optional top-level
errors list. -/
structure GqlBody where
  data : Option GqlData
  errors : Option (List GqlErrorItem)
deriving Repr, DecidableEq

/-- Errors thrown inside restToGraphQLAdapter.js: ValidationError,
GraphQLError (carrying either the top-level errors list or the
operation's userErrors list), and plain Error for transport failures. -/
inductive RGError where
  | invalidPayload (e : ValidationErr)
  | graphQL (errors : List GqlErrorItem)
  | generic (message : String)
deriving Repr, DecidableEq

/-- Models executeGraphQL of restToGraphQLAdapter.js applied to the
remote's fetch outcome: non-2xx status and network failures become plain
errors (rethrown with the GraphQL request failed prefix); an HTTP-ok
response with a non-empty top-level errors list throws GraphQLError; else
a non-empty data.orderCreate.userErrors list throws GraphQLError; else
the body's data field (possibly undefined) is returned. -/
def executeGraphQL : FetchOutcome GqlBody → Except RGError (Option GqlData)
  | .networkFailure msg => .error (.generic ("GraphQL request failed: " ++ msg))
  | .response status statusText body =>
    if ¬ (200 ≤ status ∧ status ≤ 299) then
      .error (.generic ("GraphQL request failed: HTTP " ++ toString status ++ ": " ++ statusText))
    else
      match body.errors with
      | some errs =>
        if errs.length > 0 then .error (.graphQL errs)
        else
          match (body.data.bind (·.orderCreate)).bind (·.userErrors) with
          | some ue => if ue.length > 0 then .error (.graphQL ue) else .ok body.data
          | none => .ok body.data
      | none =>
        match (body.data.bind (·.orderCreate)).bind (·.userErrors) with
        | some ue => if ue.length > 0 then .error (.graphQL ue) else .ok body.data
        | none => .ok body.data

/-- The error object of the failure envelope built by handleError of
restToGraphQLAdapter.js (timestamps and the development-mode stack trace
are outside the model). -/
structure RGErrorInfo where
  type : String
  message : String
  field : Option String
  graphqlErrors : Option (List GqlErrorItem)
deriving Repr, DecidableEq

/-- Models handleError of restToGraphQLAdapter.js. -/
def handleError : RGError → RGErrorInfo
  | .invalidPayload e => ⟨"ValidationError", e.message, some e.field, none⟩
  | .graphQL errs => ⟨"GraphQLError", "GraphQL execution failed", none, some errs⟩
  | .generic m => ⟨"Error", m, none, none⟩

/-- One GraphQL request as sent by the adapter: the built document and the
mapped variables (the source's variables field; renamed because variables
is reserved in Lean). -/
structure GqlRequest where
  query : MutationDocument
  gqlVariables : ShopifyVariables
deriving Repr, DecidableEq

/-- Models restToGraphQLAdapter of restToGraphQLAdapter.js.  The remote
endpoint is modelled as a function from the issued request to its fetch
outcome; the adapter additionally returns the list of GraphQL requests it
issued, making call counts observable.  Every thrown error is caught and
converted by handleError; the success envelope stores the executor's
return value, which is the response body's possibly-undefined data
field. -/
def restToGraphQLAdapter (payload : Option StripePayload)
    (remote : GqlRequest → FetchOutcome GqlBody) :
    TranslationResult GqlData RGErrorInfo × List GqlRequest :=
  match payload with
  | none =>
    (⟨false, none, some (handleError (.invalidPayload ⟨"Payload must be a valid object", "payload"⟩))⟩, [])
  | some p =>
    match validatePayload (some p) with
    | .error e => (⟨false, none, some (handleError (.invalidPayload e))⟩, [])
    | .ok _ =>
      let req : GqlRequest := ⟨buildShopifyOrderMutation, transformStripeToShopify p⟩
      match executeGraphQL (remote req) with
      | .error e => (⟨false, none, some (handleError e)⟩, [req])
      | .ok d => (⟨true, d, none⟩, [req])

end Frankenstack.RestToGraphQL

namespace Frankenstack.GraphQLToRest

open Frankenstack

/-- One Shopify variant node; only the price is observable downstream. -/
structure ShopifyVariant where
  price : Option String
deriving Repr, DecidableEq

/-- One Shopify product node.  The variants field models the
variants.edges list of nodes; absence models a missing variants
property. -/
structure ShopifyProduct where
  id : Option String
  title : Option String
  variants : Option (List ShopifyVariant)
deriving Repr, DecidableEq

/-- The decoded data field of a GraphQL response in this direction, by
the shapes parseGraphQLResponse dispatches on: the Shopify products
connection, a generic edges list, an already-flat array, or a single
non-nested object. -/
inductive GRData where
  | products (edges : List ShopifyProduct)
  | plainEdges (items : List ShopifyProduct)
  | flatList (items : List ShopifyProduct)
  | single (item : ShopifyProduct)
deriving Repr, DecidableEq

/-- A product after parseGraphQLResponse: the node plus the firstVariant
field the parser attaches in the products branch (absent and null are
collapsed, which is observationally equivalent downstream). -/
structure ParsedProduct where
  product : ShopifyProduct
  firstVariant : Option ShopifyVariant
deriving Repr, DecidableEq

/-- Models parseGraphQLResponse of graphqlToRestAdapter.js on a defined
data value: the products branch unwraps edge nodes and attaches
firstVariant; the generic edges branch unwraps nodes; an array passes
through; anything else is wrapped in a one-element array. -/
def parseGraphQLResponse : GRData → List ParsedProduct
  | .products es => es.map (fun p => ⟨p, p.variants.bind List.head?⟩)
  | .plainEdges items => items.map (fun p => ⟨p, none⟩)
  | .flatList items => items.map (fun p => ⟨p, none⟩)
  | .single p => [⟨p, none⟩]

/-- A decoded GraphQL response body for the source query. -/
structure GRBody where
  data : Option GRData
  errors : Option (List GqlErrorItem)
deriving Repr, DecidableEq

/-- A decoded REST response body: the error message the source reads via
result.error?.message, plus opaque remaining content. -/
structure RestBody where
  errorMessage : Option String
  content : String
deriving Repr, DecidableEq

/-- Errors thrown inside graphqlToRestAdapter.js: GraphQLError,
RestAPIError (message, statusCode, decoded response), RateLimitError
(retryAfter, with none modelling NaN), plain Error, and the TypeError
raised by dereferencing an undefined value. -/
inductive GRError where
  | graphQL (errors : List GqlErrorItem)
  | restAPI (message : String) (statusCode : Nat) (response : Option RestBody)
  | rateLimit (retryAfter : Option Int)
  | generic (message : String)
  | typeErr (message : String)
deriving Repr, DecidableEq

/-- Models executeGraphQL of graphqlToRestAdapter.js applied to the fetch
outcome of the source query: non-2xx status and network failures become
plain errors; an HTTP-ok response with a non-empty top-level errors list
throws GraphQLError (this executor has no userErrors check); otherwise
the body's possibly-undefined data field is returned. -/
def executeGraphQLSource : FetchOutcome GRBody → Except GRError (Option GRData)
  | .networkFailure msg => .error (.generic ("GraphQL request failed: " ++ msg))
  | .response status statusText body =>
    if ¬ (200 ≤ status ∧ status ≤ 299) then
      .error (.generic ("GraphQL request failed: HTTP " ++ toString status ++ ": " ++ statusText))
    else
      match body.errors with
      | some errs => if errs.length > 0 then .error (.graphQL errs) else .ok body.data
      | none => .ok body.data

/-- The metadata block of the Stripe customer payload built by
transformShopifyToStripe (the synced_at wall-clock timestamp is outside
the model). -/
structure StripeMetadataOut where
  shopify_product_id : Option String
  product_title : Option String
  price : String
  source : String
deriving Repr, DecidableEq

/-- The Stripe customer payload built by transformShopifyToStripe. -/
structure StripeCustomerPayload where
  description : String
  metadata : StripeMetadataOut
deriving Repr, DecidableEq

/-- Models transformShopifyToStripe of graphqlToRestAdapter.js without
custom mappings (the orchestrator passes config.mappings through; the
claims under proof exercise the default path).  The price falls back
through firstVariant price, first variants-edge price, then the literal
0.00, with JavaScript or-falsiness at each step. -/
def transformShopifyToStripe (item : ParsedProduct) : StripeCustomerPayload :=
  let p1 : Option String := item.firstVariant.bind (·.price)
  let p2 : Option String := (item.product.variants.getD []).head?.bind (·.price)
  let price := jsOr p1 (jsOr p2 "0.00")
  ⟨"Product: " ++ jsTemplate item.product.title,
   ⟨item.product.id, item.product.title, price, "shopify_sync"⟩⟩

/-- Outcome of one REST fetch call: a response with status, status text,
the retry-after header value when present, and the decoded body, or a
network-level failure. -/
inductive RestFetchOutcome where
  | response (status : Nat) (statusText : String)
      (retryAfterHeader : Option String) (body : RestBody)
  | networkFailure (message : String)
deriving Repr, DecidableEq

/-- Models executeRest of graphqlToRestAdapter.js applied to the fetch
outcome: status 429 throws RateLimitError with retryAfter parsed from the
retry-after header (the header value or the number 5 when the header is
absent, then through parseInt); other non-2xx statuses throw RestAPIError
with the body's error message or an HTTP status message; network-level
failures throw RestAPIError with status code 0 and no response. -/
def executeRest : RestFetchOutcome → Except GRError RestBody
  | .networkFailure msg => .error (.restAPI ("REST request failed: " ++ msg) 0 none)
  | .response status statusText hdr body =>
    if status = 429 then
      .error (.rateLimit (parseIntJS (jsOr hdr "5")))
    else if ¬ (200 ≤ status ∧ status ≤ 299) then
      .error (.restAPI (jsOr body.errorMessage ("HTTP " ++ toString status ++ ": " ++ statusText))
              status (some body))
    else .ok body

/-- The retry-eligibility test of executeRestWithRetry's catch branches:
RateLimitError, any error whose statusCode is 429, and any error whose
statusCode is at least 500.  Errors carrying no statusCode (GraphQLError,
plain Error, TypeError) and RestAPIError with a smaller status — in
particular status 0 from network-level failures — are not retried. -/
def retryable : GRError → Bool
  | .rateLimit _ => true
  | .restAPI _ status _ => status = 429 || 500 ≤ status
  | _ => false

/-- Models the loop of executeRestWithRetry: attempt is the 0-indexed
attempt counter, the second argument the remaining attempt budget.  The
result pairs the outcome with the number of attempts performed.  An
error value of none models the source throwing its undefined lastError,
reachable only with a zero attempt budget. -/
def retryLoop (op : Nat → RestFetchOutcome) (attempt : Nat) :
    Nat → Except (Option GRError) RestBody × Nat
  | 0 => (.error none, 0)
  | remaining + 1 =>
    match executeRest (op attempt) with
    | .ok r => (.ok r, 1)
    | .error e =>
      if retryable e then
        match retryLoop op (attempt + 1) remaining with
        | (.error none, n) => (.error (some e), n + 1)
        | (res, n) => (res, n + 1)
      else (.error (some e), 1)

/-- Models executeRestWithRetry of graphqlToRestAdapter.js; the source's
maxRetries parameter defaults to 3 at every call site.  The op function
gives the fetch outcome of each attempt. -/
def executeRestWithRetry (op : Nat → RestFetchOutcome) (maxRetries : Nat) :
    Except (Option GRError) RestBody × Nat :=
  retryLoop op 0 maxRetries

/-- The message property read from a caught error, per error class. -/
def errorMessage : GRError → String
  | .graphQL _ => "GraphQL execution failed"
  | .restAPI m _ _ => m
  | .rateLimit _ => "Rate limit exceeded"
  | .generic m => m
  | .typeErr m => m

/-- The message of a possibly-undefined last error; the none case is
unreachable for the positive attempt budgets the source uses. -/
def errorMessageOpt : Option GRError → String
  | some e => errorMessage e
  | none => "undefined"

/-- One per-item outcome of processBatch: success with the REST result,
or failure with the caught error's message; item is the product title. -/
structure BatchItemOutcome where
  success : Bool
  data : Option RestBody
  error : Option String
  item : Option String
deriving Repr, DecidableEq

/-- The per-item step of processBatch: transform the item, execute the
REST call with retry (attempt budget 3), and catch a thrown error into a
failure outcome instead of letting it abort the batch. -/
def batchItemOutcome (restRemote : StripeCustomerPayload → Nat → RestFetchOutcome)
    (item : ParsedProduct) : BatchItemOutcome :=
  let payload := transformShopifyToStripe item
  match executeRestWithRetry (restRemote payload) 3 with
  | (.ok r, _) => ⟨true, some r, none, item.product.title⟩
  | (.error e, _) => ⟨false, none, some (errorMessageOpt e), item.product.title⟩

/-- Item-at-a-time form of the batching loop of processBatch for group
size g.  The counter is the number of group slots still free including
the current item; when it reaches zero the current group is complete, so
one inter-group sleep is taken and the next item starts a fresh group.
Results are produced in input order. -/
def batchAux {α β : Type} (f : α → β) (g : Nat) : List α → Nat → List β × Nat
  | [], _ => ([], 0)
  | x :: xs, 0 =>
    let t := batchAux f g xs (g - 1)
    (f x :: t.1, 1 + t.2)
  | x :: xs, k + 1 =>
    let t := batchAux f g xs k
    (f x :: t.1, t.2)

/-- The batching loop of processBatch for group size g: contiguous groups
of g items (final group possibly smaller), one sleep between consecutive
groups, never before the first group or after the last. -/
def batchLoop {α β : Type} (f : α → β) (g : Nat) (l : List α) : List β × Nat :=
  batchAux f g l g

/-- The effective batch size of processBatch: config.batchSize || 5, with
an absent or zero configured size falling back to 5. -/
def effectiveBatchSize (cfgBatchSize : Option Nat) : Nat :=
  match cfgBatchSize with
  | some n => if n = 0 then 5 else n
  | none => 5

/-- Models processBatch of graphqlToRestAdapter.js: items are processed
in contiguous groups of the effective batch size (the final group may be
smaller), one sleep of the configured delay is taken between consecutive
groups, and the per-item step catches failures.  Returns the outcome
list and the number of sleeps taken. -/
def processBatch (restRemote : StripeCustomerPayload → Nat → RestFetchOutcome)
    (cfgBatchSize : Option Nat) (items : List ParsedProduct) :
    List BatchItemOutcome × Nat :=
  batchLoop (batchItemOutcome restRemote) (effectiveBatchSize cfgBatchSize) items

/-- The results field of the success envelope: batch mode carries
per-item outcomes, single mode carries the raw REST body. -/
inductive GRResults where
  | batched (outcomes : List BatchItemOutcome)
  | singleResult (bodies : List RestBody)
deriving Repr, DecidableEq

/-- Length of the results list. -/
def GRResults.length : GRResults → Nat
  | .batched l => l.length
  | .singleResult l => l.length

/-- The data field of the success envelope: processed count and results. -/
structure GRSuccessData where
  processed : Nat
  results : GRResults
deriving Repr, DecidableEq

/-- The error object of the failure envelope built by handleError of
graphqlToRestAdapter.js (timestamps and the development-mode stack trace
are outside the model). -/
structure GRErrorInfo where
  type : String
  message : String
  graphqlErrors : Option (List GqlErrorItem)
  statusCode : Option Nat
  response : Option (Option RestBody)
  retryAfter : Option (Option Int)
deriving Repr, DecidableEq

/-- Models handleError of graphqlToRestAdapter.js. -/
def handleError : GRError → GRErrorInfo
  | .graphQL errs => ⟨"GraphQLError", "GraphQL execution failed", some errs, none, none, none⟩
  | .restAPI m st resp => ⟨"RestAPIError", m, none, some st, some resp, none⟩
  | .rateLimit ra => ⟨"RateLimitError", "Rate limit exceeded", none, none, none, some ra⟩
  | .generic m => ⟨"Error", m, none, none, none, none⟩
  | .typeErr m => ⟨"TypeError", m, none, none, none, none⟩

/-- The product the single-item path transforms when the parsed list is
empty: parsedData[0] || parsedData yields the empty array itself, whose
title, id and variants properties are all absent. -/
def emptyArrayAsProduct : ParsedProduct := ⟨⟨none, none, none⟩, none⟩

/-- Models graphqlToRestAdapter of graphqlToRestAdapter.js.  The source
GraphQL call is modelled by its fetch outcome and each REST call by a
function from the sent payload and 0-indexed attempt to its fetch
outcome.  batchMode models config.batchMode !== false; parsed data is
always an array, so batch mode alone selects the batch path.  An
undefined GraphQL data field makes parseGraphQLResponse dereference
undefined, and the orchestrator catches the resulting TypeError.  Every
thrown error is caught and converted by handleError. -/
def graphqlToRestAdapter (gqlOutcome : FetchOutcome GRBody)
    (restRemote : StripeCustomerPayload → Nat → RestFetchOutcome)
    (batchMode : Bool) (cfgBatchSize : Option Nat) :
    TranslationResult GRSuccessData GRErrorInfo :=
  match executeGraphQLSource gqlOutcome with
  | .error e => ⟨false, none, some (handleError e)⟩
  | .ok none =>
    ⟨false, none, some (handleError
      (.typeErr "Cannot read properties of undefined (reading 'products')"))⟩
  | .ok (some d) =>
    let parsed := parseGraphQLResponse d
    if batchMode then
      let results := (processBatch restRemote cfgBatchSize parsed).1
      ⟨true, some ⟨results.length, .batched results⟩, none⟩
    else
      let item := parsed.head?.getD emptyArrayAsProduct
      let payload := transformShopifyToStripe item
      match executeRestWithRetry (restRemote payload) 3 with
      | (.ok r, _) => ⟨true, some ⟨1, .singleResult [r]⟩, none⟩
      | (.error (some e), _) => ⟨false, none, some (handleError e)⟩
      | (.error none, _) =>
        ⟨false, none, some (handleError
          (.typeErr "Cannot read properties of undefined (reading 'message')"))⟩

end Frankenstack.GraphQLToRest

namespace Frankenstack.RestToGraphQL

/-- The required-check list of the REST→GraphQL validator in source
declaration order: each entry pairs the check with the field the thrown
ValidationError names when the check fails.  The source interleaves the
presence checks for type and data.object before the event-type literal
check. -/
def requiredChecks (p : StripePayload) : List (Bool × String) :=
  [ (truthyStr p.type, "type"),
    ((p.data.bind (·.object)).isSome, "data.object"),
    (p.type == some "payment_intent.succeeded", "type"),
    (truthyNat ((p.data.bind (·.object)).bind (·.amount)), "amount"),
    (truthyStr ((p.data.bind (·.object)).bind (·.currency)), "currency"),
    (truthyStr (((p.data.bind (·.object)).bind (·.customer)).bind (·.email)), "customer.email") ]

/-- The field paired with the first failing check, if any check fails. -/
def firstFailure : List (Bool × String) → Option String
  | [] => none
  | (ok, f) :: rest => if ok then firstFailure rest else some f

/-- The end-to-end example payload of the specification: a
payment_intent.succeeded event for 5000 minor units of usd with customer
John Doe and metadata product X, quantity 2. -/
def examplePayload : StripePayload :=
  ⟨some "payment_intent.succeeded",
   some ⟨some ⟨some "pi_1", some 5000, some "usd",
     some ⟨some "a@b.com", some "John Doe"⟩,
     some ⟨some "X", some "2"⟩⟩⟩⟩

/-- The example payload with metadata.quantity omitted. -/
def examplePayloadNoQuantity : StripePayload :=
  ⟨some "payment_intent.succeeded",
   some ⟨some ⟨some "pi_1", some 5000, some "usd",
     some ⟨some "a@b.com", some "John Doe"⟩,
     some ⟨some "X", none⟩⟩⟩⟩

/-- The example payload with a non-numeric metadata.quantity string. -/
def examplePayloadQuantityAbc : StripePayload :=
  ⟨some "payment_intent.succeeded",
   some ⟨some ⟨some "pi_1", some 5000, some "usd",
     some ⟨some "a@b.com", some "John Doe"⟩,
     some ⟨some "X", some "abc"⟩⟩⟩⟩

/-- The example payload with amount present but zero. -/
def examplePayloadAmountZero : StripePayload :=
  ⟨some "payment_intent.succeeded",
   some ⟨some ⟨some "pi_1", some 0, some "usd",
     some ⟨some "a@b.com", some "John Doe"⟩,
     some ⟨some "X", some "2"⟩⟩⟩⟩

/-- The example payload with the currency present but empty. -/
def examplePayloadCurrencyEmpty : StripePayload :=
  ⟨some "payment_intent.succeeded",
   some ⟨some ⟨some "pi_1", some 5000, some "",
     some ⟨some "a@b.com", some "John Doe"⟩,
     some ⟨some "X", some "2"⟩⟩⟩⟩

/-- The example payload with the customer email present but empty. -/
def examplePayloadEmailEmpty : StripePayload :=
  ⟨some "payment_intent.succeeded",
   some ⟨some ⟨some "pi_1", some 5000, some "usd",
     some ⟨some "", some "John Doe"⟩,
     some ⟨some "X", some "2"⟩⟩⟩⟩

/-- The example payload restricted to the event type, with the data part
missing entirely. -/
def examplePayloadNoData : StripePayload :=
  ⟨some "payment_intent.succeeded", none⟩

end Frankenstack.RestToGraphQL

namespace Frankenstack.GraphQLToRest

/-- A sample parsed product for batch-coordinator witnesses. -/
def sampleItem : ParsedProduct :=
  ⟨⟨some "gid1", some "Widget", some [⟨some "9.99"⟩]⟩, some ⟨some "9.99"⟩⟩

/-- A second sample parsed product whose title differs. -/
def sampleItemB : ParsedProduct :=
  ⟨⟨some "gid2", some "Gadget", none⟩, none⟩

/-- A REST remote that always answers HTTP 200 with an ok body. -/
def alwaysOkRemote : StripeCustomerPayload → Nat → RestFetchOutcome :=
  fun _ _ => .response 200 "OK" none ⟨none, "ok"⟩

/-- A REST remote that always answers HTTP 503. -/
def always503Remote : StripeCustomerPayload → Nat → RestFetchOutcome :=
  fun _ _ => .response 503 "Service Unavailable" none ⟨none, ""⟩

/-- A REST remote that rejects payloads whose metadata title is Gadget
with HTTP 400 and accepts every other payload, exercising per-item
failure isolation in the batch coordinator. -/
def gadgetRejectingRemote : StripeCustomerPayload → Nat → RestFetchOutcome :=
  fun p _ =>
    if p.metadata.product_title = some "Gadget"
    then .response 400 "Bad Request" none ⟨some "invalid product", ""⟩
    else .response 200 "OK" none ⟨none, "ok"⟩

/-- Seven sample items, the second of which the gadget-rejecting remote
fails. -/
def sevenItems : List ParsedProduct :=
  [sampleItem, sampleItemB, sampleItem, sampleItem, sampleItem, sampleItem, sampleItem]

end Frankenstack.GraphQLToRest

namespace Frankenstack

/-- digitChar always produces a decimal digit character. -/
theorem digitChar_isDigit (d : Nat) : (digitChar d).isDigit = true := by
  unfold digitChar
  have h : d % 10 < 10 := Nat.mod_lt _ (by norm_num)
  set k := d % 10 with hk
  interval_cases k <;> decide

/-- The fractional part rendered by twoDigitString always has length
two. -/
theorem twoDigitString_length (m : Nat) : (twoDigitString m).length = 2 := rfl

/-- The fractional part rendered by twoDigitString consists of decimal
digits only. -/
theorem twoDigitString_digits (m : Nat) :
    (twoDigitString m).data.all Char.isDigit = true := by
  simp [twoDigitString, digitChar_isDigit]

end Frankenstack

namespace Frankenstack.RestToGraphQL

/-- Characterization of a passing validation run: the event type equals
the expected literal and the amount, currency and customer email paths
are all truthy. -/
theorem validatePayload_ok_iff (p : StripePayload) :
    validatePayload (some p) = .ok () ↔
      p.type = some "payment_intent.succeeded" ∧
      ∃ pi, p.data.bind (·.object) = some pi ∧
        truthyNat pi.amount = true ∧
        truthyStr pi.currency = true ∧
        truthyStr (pi.customer.bind (·.email)) = true := by
  have htv : truthyStr (some "payment_intent.succeeded") = true := by decide
  constructor
  · intro h
    by_cases h1 : truthyStr p.type = true
    case neg => simp [validatePayload, h1] at h
    case pos =>
    cases hobj : p.data.bind (·.object) with
    | none => simp [validatePayload, h1, hobj] at h
    | some pi =>
      by_cases h2 : p.type = some "payment_intent.succeeded"
      case neg => simp [validatePayload, h1, hobj, h2] at h
      case pos =>
      by_cases h3 : truthyNat pi.amount = true
      case neg => simp [validatePayload, h1, hobj, h2, h3, htv] at h
      case pos =>
      by_cases h4 : truthyStr pi.currency = true
      case neg => simp [validatePayload, h1, hobj, h2, h3, h4, htv] at h
      case pos =>
      cases hc : pi.customer with
      | none => simp [validatePayload, h1, hobj, h2, h3, h4, hc, htv] at h
      | some cu =>
        by_cases h5 : truthyStr cu.email = true
        case neg => simp [validatePayload, h1, hobj, h2, h3, h4, hc, h5, htv] at h
        case pos => exact ⟨h2, pi, rfl, h3, h4, by simp [hc, h5]⟩
  · rintro ⟨ht, pi, hobj, h3, h4, h5⟩
    have h1 : truthyStr p.type = true := by rw [ht]; decide
    cases hc : pi.customer with
    | none =>
      rw [hc] at h5
      exact absurd h5 (by decide)
    | some cu =>
      have h5e : truthyStr cu.email = true := by
        rw [hc] at h5
        simpa using h5
      simp [validatePayload, h1, hobj, ht, h3, h4, hc, h5e, htv]

end Frankenstack.RestToGraphQL

namespace Frankenstack.RestToGraphQL

/-- C5: for every valid REST payload whose integer minor-unit amount is
n, the transform renders totalPrice as the exact decimal string of n
divided by 100 with exactly two fractional decimal digits — a string
value, never a float — and upper-cases the currency code. -/
theorem c5_money_two_decimal_string (p : StripePayload) (n : Nat) (c : String)
    (hv : validatePayload (some p) = .ok ())
    (ha : (paymentObject p).bind (·.amount) = some n)
    (hc : (paymentObject p).bind (·.currency) = some c) :
    (transformStripeToShopify p).totalPrice =
      toString (n / 100) ++ "." ++ twoDigitString (n % 100) ∧
    (twoDigitString (n % 100)).length = 2 ∧
    (twoDigitString (n % 100)).data.all Char.isDigit = true ∧
    (transformStripeToShopify p).currency = toUpperJS c := by
  obtain ⟨ht, pi, hobj, h3, h4, h5⟩ := (validatePayload_ok_iff p).mp hv
  have hobj2 : paymentObject p = some pi := hobj
  rw [hobj2] at ha hc
  simp only [Option.some_bind] at ha hc
  have hcne : c ≠ "" := by
    rw [hc] at h4
    simpa [truthyStr] using h4
  refine ⟨?_, twoDigitString_length _, twoDigitString_digits _, ?_⟩
  · simp [transformStripeToShopify, hobj2, ha, centsToFixed2]
  · simp [transformStripeToShopify, hobj2, hc, jsOr, hcne]

/-- Witness for c5_money_two_decimal_string at the specification's
end-to-end example payload: minor-unit amount 5000 becomes the string
50.00 and currency usd becomes USD. -/
theorem c5_money_two_decimal_string_witness :
    (transformStripeToShopify examplePayload).totalPrice =
      toString (5000 / 100) ++ "." ++ twoDigitString (5000 % 100) ∧
    (transformStripeToShopify examplePayload).totalPrice = "50.00" ∧
    (transformStripeToShopify examplePayload).currency = "USD" :=
  ⟨(c5_money_two_decimal_string examplePayload 5000 "usd"
      (by decide) (by decide) (by decide)).1,
   by decide, by decide⟩

/-- C7 counterexample: a payload whose metadata.quantity is the
non-numeric string abc transforms to quantity NaN (modelled none), not
1, refuting the claim that an unparsable quantity defaults to 1. -/
theorem c7_counterexample :
    (transformStripeToShopify examplePayloadQuantityAbc).quantity = none ∧
    ((transformStripeToShopify examplePayloadQuantityAbc).quantity = some 1 → False) := by
  decide

/-- C7 (amended): the transform parses quantity with parseInt on the
quantity string or the default string 1; an absent or empty quantity
therefore yields quantity 1 (a payload with metadata.quantity omitted
transforms with quantity 1 rather than failing validation), and a
non-empty quantity yields its parseInt value — the parsed integer when
parsable, NaN rather than 1 when not. -/
theorem c7_quantity_parse_and_default (p : StripePayload) :
    (((paymentObject p).bind (·.metadata)).bind (·.quantity) = none →
       (transformStripeToShopify p).quantity = some 1) ∧
    (((paymentObject p).bind (·.metadata)).bind (·.quantity) = some "" →
       (transformStripeToShopify p).quantity = some 1) ∧
    (∀ s, ((paymentObject p).bind (·.metadata)).bind (·.quantity) = some s → s ≠ "" →
       (transformStripeToShopify p).quantity = parseIntJS s) := by
  have hone : parseIntJS "1" = some 1 := by decide
  refine ⟨?_, ?_, ?_⟩
  · intro h
    simp [transformStripeToShopify, h, jsOr, hone]
  · intro h
    simp [transformStripeToShopify, h, jsOr, hone]
  · intro s h hne
    simp [transformStripeToShopify, h, jsOr, hne]

/-- Witness for c7_quantity_parse_and_default: the example payload with
quantity omitted validates and transforms to quantity 1; the example
payload with numeric quantity string 2 transforms to quantity 2. -/
theorem c7_quantity_parse_and_default_witness :
    validatePayload (some examplePayloadNoQuantity) = .ok () ∧
    (transformStripeToShopify examplePayloadNoQuantity).quantity = some 1 ∧
    (transformStripeToShopify examplePayload).quantity = some 2 :=
  ⟨by decide,
   (c7_quantity_parse_and_default examplePayloadNoQuantity).1 (by decide),
   by
     have h := (c7_quantity_parse_and_default examplePayload).2.2 "2" (by decide) (by decide)
     rw [h]; decide⟩

/-- C10: required-field validation is a falsiness check, not a presence
check: an amount present but zero, a currency present but empty, or a
customer email present but empty each cause a ValidationError naming
that field, and the orchestrator returns success false carrying it. -/
theorem c10_falsiness_validation (p : StripePayload) (pi : PaymentIntent)
    (remote : GqlRequest → FetchOutcome GqlBody)
    (hobj : p.data.bind (·.object) = some pi)
    (htype : p.type = some "payment_intent.succeeded") :
    (pi.amount = some 0 →
       validatePayload (some p) =
         .error ⟨"Missing required field: data.object.amount", "amount"⟩ ∧
       (restToGraphQLAdapter (some p) remote).1 =
         ⟨false, none,
          some ⟨"ValidationError", "Missing required field: data.object.amount",
                some "amount", none⟩⟩) ∧
    (truthyNat pi.amount = true → pi.currency = some "" →
       validatePayload (some p) =
         .error ⟨"Missing required field: data.object.currency", "currency"⟩ ∧
       (restToGraphQLAdapter (some p) remote).1 =
         ⟨false, none,
          some ⟨"ValidationError", "Missing required field: data.object.currency",
                some "currency", none⟩⟩) ∧
    (∀ cu, truthyNat pi.amount = true → truthyStr pi.currency = true →
       pi.customer = some cu → cu.email = some "" →
       validatePayload (some p) =
         .error ⟨"Missing required field: data.object.customer.email", "customer.email"⟩ ∧
       (restToGraphQLAdapter (some p) remote).1 =
         ⟨false, none,
          some ⟨"ValidationError", "Missing required field: data.object.customer.email",
                some "customer.email", none⟩⟩) := by
  have h1 : truthyStr p.type = true := by rw [htype]; decide
  have htv : truthyStr (some "payment_intent.succeeded") = true := by decide
  have hz : truthyNat (some 0) = false := by decide
  have he : truthyStr (some "") = false := by decide
  refine ⟨?_, ?_, ?_⟩
  · intro ha
    have hv : validatePayload (some p) =
        .error ⟨"Missing required field: data.object.amount", "amount"⟩ := by
      simp [validatePayload, h1, hobj, htype, ha, hz, htv]
    exact ⟨hv, by simp [restToGraphQLAdapter, hv, handleError]⟩
  · intro ha hcur
    have hv : validatePayload (some p) =
        .error ⟨"Missing required field: data.object.currency", "currency"⟩ := by
      simp [validatePayload, h1, hobj, htype, ha, hcur, he, htv]
    exact ⟨hv, by simp [restToGraphQLAdapter, hv, handleError]⟩
  · intro cu ha hcur hcust hemail
    have hv : validatePayload (some p) =
        .error ⟨"Missing required field: data.object.customer.email", "customer.email"⟩ := by
      simp [validatePayload, h1, hobj, htype, ha, hcur, hcust, hemail, he, htv]
    exact ⟨hv, by simp [restToGraphQLAdapter, hv, handleError]⟩

/-- Witness for c10_falsiness_validation at concrete payloads with a
zero amount, an empty currency and an empty customer email. -/
theorem c10_falsiness_validation_witness :
    validatePayload (some examplePayloadAmountZero) =
      .error ⟨"Missing required field: data.object.amount", "amount"⟩ ∧
    validatePayload (some examplePayloadCurrencyEmpty) =
      .error ⟨"Missing required field: data.object.currency", "currency"⟩ ∧
    validatePayload (some examplePayloadEmailEmpty) =
      .error ⟨"Missing required field: data.object.customer.email", "customer.email"⟩ :=
  ⟨((c10_falsiness_validation examplePayloadAmountZero
      ⟨some "pi_1", some 0, some "usd",
        some ⟨some "a@b.com", some "John Doe"⟩, some ⟨some "X", some "2"⟩⟩
      (fun _ => .networkFailure "unused") (by decide) (by decide)).1 (by decide)).1,
   ((c10_falsiness_validation examplePayloadCurrencyEmpty
      ⟨some "pi_1", some 5000, some "",
        some ⟨some "a@b.com", some "John Doe"⟩, some ⟨some "X", some "2"⟩⟩
      (fun _ => .networkFailure "unused") (by decide) (by decide)).2.1
        (by decide) (by decide)).1,
   ((c10_falsiness_validation examplePayloadEmailEmpty
      ⟨some "pi_1", some 5000, some "usd",
        some ⟨some "", some "John Doe"⟩, some ⟨some "X", some "2"⟩⟩
      (fun _ => .networkFailure "unused") (by decide) (by decide)).2.2
        ⟨some "", some "John Doe"⟩ (by decide) (by decide) (by decide) (by decide)).1⟩

end Frankenstack.RestToGraphQL

namespace Frankenstack.RestToGraphQL

/-- C8 counterexample: a payload whose event type equals the expected
literal but whose data part is missing fails with a ValidationError
whose field is data.object, which is not among the claim's declared
required set (the discriminator, amount, currency and customer-email
paths), so the error does not name the first missing member of that
set (which would be the amount path). -/
theorem c8_counterexample :
    validatePayload (some examplePayloadNoData) =
      .error ⟨"Missing required field: data.object", "data.object"⟩ ∧
    (("data.object" : String) ∈ ["type", "amount", "currency", "customer.email"] → False) := by
  decide

/-- C8 (amended): validation fails with the ValidationError of the first
failing check in the source's declaration order — a non-null payload,
event-type present, data.object present, event-type equal to the
expected literal, then amount, currency and customer-email truthiness —
and an unknown event type with data.object present yields a
ValidationError naming the discriminator field, never a silent no-op. -/
theorem c8_first_failing_check (p : StripePayload) :
    (firstFailure (requiredChecks p) = none → validatePayload (some p) = .ok ()) ∧
    (∀ f, firstFailure (requiredChecks p) = some f →
       ∃ m, validatePayload (some p) = .error ⟨m, f⟩) ∧
    (∃ e, validatePayload none = .error e ∧ e.field = "payload") ∧
    (∀ t, p.type = some t → t ≠ "" → t ≠ "payment_intent.succeeded" →
       (p.data.bind (·.object)).isSome = true →
       ∃ m, validatePayload (some p) = .error ⟨m, "type"⟩) := by
  have htv : truthyStr (some "payment_intent.succeeded") = true := by decide
  refine ⟨?_, ?_, ⟨⟨"Payload must be a valid object", "payload"⟩, rfl, rfl⟩, ?_⟩
  · intro hf
    by_cases h1 : truthyStr p.type = true
    case neg => simp [requiredChecks, firstFailure, h1] at hf
    case pos =>
    cases hobj : p.data.bind (·.object) with
    | none => simp [requiredChecks, firstFailure, h1, hobj] at hf
    | some pi =>
      by_cases h2 : p.type = some "payment_intent.succeeded"
      case neg => simp [requiredChecks, firstFailure, h1, hobj, h2] at hf
      case pos =>
      by_cases h3 : truthyNat pi.amount = true
      case neg => simp [requiredChecks, firstFailure, h1, hobj, h2, h3, htv] at hf
      case pos =>
      by_cases h4 : truthyStr pi.currency = true
      case neg => simp [requiredChecks, firstFailure, h1, hobj, h2, h3, h4, htv] at hf
      case pos =>
      by_cases h5 : truthyStr (pi.customer.bind (·.email)) = true
      case neg => simp [requiredChecks, firstFailure, h1, hobj, h2, h3, h4, h5, htv] at hf
      case pos =>
        exact (validatePayload_ok_iff p).mpr ⟨h2, pi, hobj, h3, h4, h5⟩
  · intro f hf
    by_cases h1 : truthyStr p.type = true
    case neg =>
      simp [requiredChecks, firstFailure, h1] at hf
      refine ⟨"Missing required field: type", ?_⟩
      rw [← hf]
      simp [validatePayload, h1]
    case pos =>
    cases hobj : p.data.bind (·.object) with
    | none =>
      simp [requiredChecks, firstFailure, h1, hobj] at hf
      refine ⟨"Missing required field: data.object", ?_⟩
      rw [← hf]
      simp [validatePayload, h1, hobj]
    | some pi =>
      by_cases h2 : p.type = some "payment_intent.succeeded"
      case neg =>
        simp [requiredChecks, firstFailure, h1, hobj, h2] at hf
        refine ⟨"Unsupported event type: " ++ jsTemplate p.type ++
                ". Expected: payment_intent.succeeded", ?_⟩
        rw [← hf]
        simp [validatePayload, h1, hobj, h2]
      case pos =>
      by_cases h3 : truthyNat pi.amount = true
      case neg =>
        simp [requiredChecks, firstFailure, h1, hobj, h2, h3, htv] at hf
        refine ⟨"Missing required field: data.object.amount", ?_⟩
        rw [← hf]
        simp [validatePayload, h1, hobj, h2, h3, htv]
      case pos =>
      by_cases h4 : truthyStr pi.currency = true
      case neg =>
        simp [requiredChecks, firstFailure, h1, hobj, h2, h3, h4, htv] at hf
        refine ⟨"Missing required field: data.object.currency", ?_⟩
        rw [← hf]
        simp [validatePayload, h1, hobj, h2, h3, h4, htv]
      case pos =>
      by_cases h5 : truthyStr (pi.customer.bind (·.email)) = true
      case neg =>
        simp [requiredChecks, firstFailure, h1, hobj, h2, h3, h4, h5, htv] at hf
        refine ⟨"Missing required field: data.object.customer.email", ?_⟩
        rw [← hf]
        cases hc : pi.customer with
        | none => simp [validatePayload, h1, hobj, h2, h3, h4, hc, htv]
        | some cu =>
          have h5e : truthyStr cu.email = false := by
            rw [hc] at h5
            simpa using h5
          simp [validatePayload, h1, hobj, h2, h3, h4, hc, h5e, htv]
      case pos =>
        simp [requiredChecks, firstFailure, h1, hobj, h2, h3, h4, h5, htv] at hf
  · intro t ht htne htlit hsome
    have h1 : truthyStr p.type = true := by
      rw [ht]
      simpa [truthyStr] using htne
    cases hobj : p.data.bind (·.object) with
    | none => rw [hobj] at hsome; simp at hsome
    | some pi =>
      have h2 : p.type ≠ some "payment_intent.succeeded" := by
        rw [ht]
        simpa using htlit
      refine ⟨"Unsupported event type: " ++ jsTemplate p.type ++
              ". Expected: payment_intent.succeeded", ?_⟩
      simp [validatePayload, h1, hobj, h2]

/-- Witness for c8_first_failing_check: the full example payload passes,
a payload with the data part missing names data.object, and a payload
with an unknown event type names the discriminator field. -/
theorem c8_first_failing_check_witness :
    validatePayload (some examplePayload) = .ok () ∧
    (∃ m, validatePayload (some examplePayloadNoData) = .error ⟨m, "data.object"⟩) ∧
    (∃ m, validatePayload (some ⟨some "charge.refunded", examplePayload.data⟩) =
       .error ⟨m, "type"⟩) :=
  ⟨(c8_first_failing_check examplePayload).1 (by decide),
   (c8_first_failing_check examplePayloadNoData).2.1 "data.object" (by decide),
   (c8_first_failing_check ⟨some "charge.refunded", examplePayload.data⟩).2.2.2
     "charge.refunded" rfl (by decide) (by decide) (by decide)⟩

end Frankenstack.RestToGraphQL

namespace Frankenstack.RestToGraphQL

/-- C9 counterexample: on the specification's example payload with a
remote that answers HTTP 503 to every request, the REST→GraphQL
orchestrator issues exactly one GraphQL request — not the three attempts
the bounded retry policy would make for a 503 — and returns success
false, so its remote execution is not wrapped in the retry policy. -/
theorem c9_counterexample :
    (restToGraphQLAdapter (some examplePayload)
       (fun _ => .response 503 "Service Unavailable" ⟨none, none⟩)).2.length = 1 ∧
    ((restToGraphQLAdapter (some examplePayload)
       (fun _ => .response 503 "Service Unavailable" ⟨none, none⟩)).2.length = 3 → False) ∧
    (restToGraphQLAdapter (some examplePayload)
       (fun _ => .response 503 "Service Unavailable" ⟨none, none⟩)).1.success = false := by
  decide

/-- C9 (amended): the REST→GraphQL orchestrator sequences validation,
then mapping, then document building, then one direct GraphQL execution
— not wrapped in the retry policy — then envelope assembly: a failing
validation issues no remote request and returns its error envelope, and
a passing validation issues exactly one request carrying the built
document and the mapped variables, whose outcome alone determines the
envelope. -/
theorem c9_orchestrator_sequencing :
    (∀ payload (remote : GqlRequest → FetchOutcome GqlBody) e,
       validatePayload payload = .error e →
       restToGraphQLAdapter payload remote =
         (⟨false, none, some (handleError (.invalidPayload e))⟩, [])) ∧
    (∀ p (remote : GqlRequest → FetchOutcome GqlBody),
       validatePayload (some p) = .ok () →
       (restToGraphQLAdapter (some p) remote).2 =
         [⟨buildShopifyOrderMutation, transformStripeToShopify p⟩]) ∧
    (∀ p (remote : GqlRequest → FetchOutcome GqlBody) d,
       validatePayload (some p) = .ok () →
       executeGraphQL (remote ⟨buildShopifyOrderMutation, transformStripeToShopify p⟩) = .ok d →
       (restToGraphQLAdapter (some p) remote).1 = ⟨true, d, none⟩) ∧
    (∀ p (remote : GqlRequest → FetchOutcome GqlBody) e,
       validatePayload (some p) = .ok () →
       executeGraphQL (remote ⟨buildShopifyOrderMutation, transformStripeToShopify p⟩) = .error e →
       (restToGraphQLAdapter (some p) remote).1 = ⟨false, none, some (handleError e)⟩) := by
  refine ⟨?_, ?_, ?_, ?_⟩
  · intro payload remote e hv
    cases payload with
    | none =>
      have : e = ⟨"Payload must be a valid object", "payload"⟩ := by
        have hv0 : validatePayload none =
            .error ⟨"Payload must be a valid object", "payload"⟩ := rfl
        rw [hv0] at hv
        exact (Except.error.inj hv).symm
      subst this
      rfl
    | some p => simp [restToGraphQLAdapter, hv]
  · intro p remote hv
    cases he : executeGraphQL (remote ⟨buildShopifyOrderMutation, transformStripeToShopify p⟩) with
    | error e2 => simp [restToGraphQLAdapter, hv, he]
    | ok d => simp [restToGraphQLAdapter, hv, he]
  · intro p remote d hv he
    simp [restToGraphQLAdapter, hv, he]
  · intro p remote e hv he
    simp [restToGraphQLAdapter, hv, he]

/-- Witness for c9_orchestrator_sequencing: the example payload with an
HTTP-ok remote issues exactly one request and succeeds; a null payload
issues none and carries the validation error envelope. -/
theorem c9_orchestrator_sequencing_witness :
    (restToGraphQLAdapter (some examplePayload)
       (fun _ => .response 200 "OK" ⟨some ⟨some ⟨some []⟩⟩, none⟩)).2 =
      [⟨buildShopifyOrderMutation, transformStripeToShopify examplePayload⟩] ∧
    (restToGraphQLAdapter (some examplePayload)
       (fun _ => .response 200 "OK" ⟨some ⟨some ⟨some []⟩⟩, none⟩)).1 =
      ⟨true, some ⟨some ⟨some []⟩⟩, none⟩ ∧
    restToGraphQLAdapter none (fun _ => .response 200 "OK" ⟨none, none⟩) =
      (⟨false, none, some (handleError (.invalidPayload
         ⟨"Payload must be a valid object", "payload"⟩))⟩, []) :=
  ⟨c9_orchestrator_sequencing.2.1 examplePayload
     (fun _ => .response 200 "OK" ⟨some ⟨some ⟨some []⟩⟩, none⟩) (by decide),
   c9_orchestrator_sequencing.2.2.1 examplePayload
     (fun _ => .response 200 "OK" ⟨some ⟨some ⟨some []⟩⟩, none⟩)
     (some ⟨some ⟨some []⟩⟩) (by decide) (by decide),
   c9_orchestrator_sequencing.1 none (fun _ => .response 200 "OK" ⟨none, none⟩)
     ⟨"Payload must be a valid object", "payload"⟩ (by decide)⟩

end Frankenstack.RestToGraphQL

namespace Frankenstack

/-- C1 counterexample: on the specification's example payload with a
remote answering HTTP 200 and a body carrying neither data nor errors,
the REST→GraphQL orchestrator returns success true with data unset,
refuting that data is set if and only if success is true. -/
theorem c1_counterexample :
    (RestToGraphQL.restToGraphQLAdapter (some RestToGraphQL.examplePayload)
       (fun _ => .response 200 "OK" ⟨none, none⟩)).1.success = true ∧
    (RestToGraphQL.restToGraphQLAdapter (some RestToGraphQL.examplePayload)
       (fun _ => .response 200 "OK" ⟨none, none⟩)).1.data = none ∧
    (((RestToGraphQL.restToGraphQLAdapter (some RestToGraphQL.examplePayload)
       (fun _ => .response 200 "OK" ⟨none, none⟩)).1.data.isSome = true ↔
      (RestToGraphQL.restToGraphQLAdapter (some RestToGraphQL.examplePayload)
       (fun _ => .response 200 "OK" ⟨none, none⟩)).1.success = true) → False) := by
  decide

/-- C1 (amended): both orchestrators catch every downstream error and
always return a result envelope in which error is set exactly when
success is false and data set implies success true; for the GraphQL→REST
orchestrator data is set exactly when success is true, while the
REST→GraphQL orchestrator can return success true with data unset when
the remote 200 body lacks a data field. -/
theorem c1_envelope_invariant :
    (∀ (payload : Option RestToGraphQL.StripePayload)
       (remote : RestToGraphQL.GqlRequest → FetchOutcome RestToGraphQL.GqlBody),
       ((RestToGraphQL.restToGraphQLAdapter payload remote).1.error.isSome = true ↔
         (RestToGraphQL.restToGraphQLAdapter payload remote).1.success = false) ∧
       ((RestToGraphQL.restToGraphQLAdapter payload remote).1.data.isSome = true →
         (RestToGraphQL.restToGraphQLAdapter payload remote).1.success = true)) ∧
    (∀ (gqlOutcome : FetchOutcome GraphQLToRest.GRBody)
       (restRemote : GraphQLToRest.StripeCustomerPayload → Nat → GraphQLToRest.RestFetchOutcome)
       (batchMode : Bool) (cfgBatchSize : Option Nat),
       ((GraphQLToRest.graphqlToRestAdapter gqlOutcome restRemote batchMode cfgBatchSize).error.isSome = true ↔
         (GraphQLToRest.graphqlToRestAdapter gqlOutcome restRemote batchMode cfgBatchSize).success = false) ∧
       ((GraphQLToRest.graphqlToRestAdapter gqlOutcome restRemote batchMode cfgBatchSize).data.isSome = true ↔
         (GraphQLToRest.graphqlToRestAdapter gqlOutcome restRemote batchMode cfgBatchSize).success = true)) := by
  constructor
  · intro payload remote
    unfold RestToGraphQL.restToGraphQLAdapter
    split
    · simp
    · split
      · simp
      · dsimp only
        split <;> simp
  · intro gqlOutcome restRemote batchMode cfgBatchSize
    unfold GraphQLToRest.graphqlToRestAdapter
    split
    · simp
    · simp
    · dsimp only
      split
      · simp
      · split <;> simp

/-- Witness for c1_envelope_invariant: at the example payload with an
HTTP-ok remote carrying data, the data-set hypothesis is discharged and
the orchestrator reports success. -/
theorem c1_envelope_invariant_witness :
    (RestToGraphQL.restToGraphQLAdapter (some RestToGraphQL.examplePayload)
       (fun _ => .response 200 "OK" ⟨some ⟨some ⟨some []⟩⟩, none⟩)).1.success = true :=
  (c1_envelope_invariant.1 (some RestToGraphQL.examplePayload)
     (fun _ => .response 200 "OK" ⟨some ⟨some ⟨some []⟩⟩, none⟩)).2 (by decide)

end Frankenstack

namespace Frankenstack

/-- C2: an HTTP-ok GraphQL response whose decoded body carries a
non-empty top-level errors list — or, in the REST→GraphQL direction, a
non-empty orderCreate userErrors list — makes the GraphQL executor fail
with GraphQLError, the code's RemoteProtocolError taxonomy member, and
the orchestrators then return success false carrying that error: the
protocol error takes precedence over the successful HTTP status, and
both error channels surface as the same taxonomy member. -/
theorem c2_protocol_error_over_http200 :
    (∀ status statusText (body : RestToGraphQL.GqlBody) es,
       200 ≤ status → status ≤ 299 → body.errors = some es → es ≠ [] →
       RestToGraphQL.executeGraphQL (.response status statusText body) =
         .error (.graphQL es)) ∧
    (∀ status statusText (body : RestToGraphQL.GqlBody) ue,
       200 ≤ status → status ≤ 299 →
       (body.errors = none ∨ body.errors = some []) →
       (body.data.bind (·.orderCreate)).bind (·.userErrors) = some ue → ue ≠ [] →
       RestToGraphQL.executeGraphQL (.response status statusText body) =
         .error (.graphQL ue)) ∧
    (∀ p (remote : RestToGraphQL.GqlRequest → FetchOutcome RestToGraphQL.GqlBody) es,
       RestToGraphQL.validatePayload (some p) = .ok () →
       (∀ req, RestToGraphQL.executeGraphQL (remote req) = .error (.graphQL es)) →
       (RestToGraphQL.restToGraphQLAdapter (some p) remote).1 =
         ⟨false, none, some ⟨"GraphQLError", "GraphQL execution failed", none, some es⟩⟩) ∧
    (∀ status statusText (body : GraphQLToRest.GRBody) es,
       200 ≤ status → status ≤ 299 → body.errors = some es → es ≠ [] →
       GraphQLToRest.executeGraphQLSource (.response status statusText body) =
         .error (.graphQL es)) ∧
    (∀ status statusText (body : GraphQLToRest.GRBody) es restRemote batchMode cfgBatchSize,
       200 ≤ status → status ≤ 299 → body.errors = some es → es ≠ [] →
       GraphQLToRest.graphqlToRestAdapter (.response status statusText body)
           restRemote batchMode cfgBatchSize =
         ⟨false, none,
          some ⟨"GraphQLError", "GraphQL execution failed", some es, none, none, none⟩⟩) := by
  refine ⟨?_, ?_, ?_, ?_, ?_⟩
  · intro status statusText body es h1 h2 herr hne
    have hlen : 0 < es.length := List.length_pos.mpr hne
    simp [RestToGraphQL.executeGraphQL, h1, h2, herr, hlen]
  · intro status statusText body ue h1 h2 herr huser hne
    have hlen : 0 < ue.length := List.length_pos.mpr hne
    cases herr with
    | inl h => simp [RestToGraphQL.executeGraphQL, h1, h2, h, huser, hlen]
    | inr h => simp [RestToGraphQL.executeGraphQL, h1, h2, h, huser, hlen]
  · intro p remote es hv hrem
    have he := hrem ⟨RestToGraphQL.buildShopifyOrderMutation,
                     RestToGraphQL.transformStripeToShopify p⟩
    simp [RestToGraphQL.restToGraphQLAdapter, hv, he, RestToGraphQL.handleError]
  · intro status statusText body es h1 h2 herr hne
    have hlen : 0 < es.length := List.length_pos.mpr hne
    simp [GraphQLToRest.executeGraphQLSource, h1, h2, herr, hlen]
  · intro status statusText body es restRemote batchMode cfgBatchSize h1 h2 herr hne
    have hlen : 0 < es.length := List.length_pos.mpr hne
    have hg : GraphQLToRest.executeGraphQLSource (.response status statusText body) =
        .error (.graphQL es) := by
      simp [GraphQLToRest.executeGraphQLSource, h1, h2, herr, hlen]
    simp [GraphQLToRest.graphqlToRestAdapter, hg, GraphQLToRest.handleError]

/-- Witness for c2_protocol_error_over_http200: concrete HTTP 200
responses with one top-level error and with one userErrors entry, and
both orchestrators on those responses. -/
theorem c2_protocol_error_over_http200_witness :
    RestToGraphQL.executeGraphQL
      (.response 200 "OK" ⟨none, some [⟨"shop closed"⟩]⟩) =
      .error (.graphQL [⟨"shop closed"⟩]) ∧
    RestToGraphQL.executeGraphQL
      (.response 200 "OK" ⟨some ⟨some ⟨some [⟨"variant gone"⟩]⟩⟩, none⟩) =
      .error (.graphQL [⟨"variant gone"⟩]) ∧
    (RestToGraphQL.restToGraphQLAdapter (some RestToGraphQL.examplePayload)
       (fun _ => .response 200 "OK" ⟨none, some [⟨"shop closed"⟩]⟩)).1 =
      ⟨false, none,
       some ⟨"GraphQLError", "GraphQL execution failed", none, some [⟨"shop closed"⟩]⟩⟩ ∧
    GraphQLToRest.graphqlToRestAdapter
      (.response 200 "OK" ⟨none, some [⟨"q failed"⟩]⟩)
      GraphQLToRest.alwaysOkRemote true none =
      ⟨false, none,
       some ⟨"GraphQLError", "GraphQL execution failed", some [⟨"q failed"⟩], none, none, none⟩⟩ :=
  ⟨c2_protocol_error_over_http200.1 200 "OK" ⟨none, some [⟨"shop closed"⟩]⟩
     [⟨"shop closed"⟩] (by decide) (by decide) rfl (by decide),
   c2_protocol_error_over_http200.2.1 200 "OK"
     ⟨some ⟨some ⟨some [⟨"variant gone"⟩]⟩⟩, none⟩ [⟨"variant gone"⟩]
     (by decide) (by decide) (Or.inl rfl) rfl (by decide),
   c2_protocol_error_over_http200.2.2.1 RestToGraphQL.examplePayload
     (fun _ => .response 200 "OK" ⟨none, some [⟨"shop closed"⟩]⟩) [⟨"shop closed"⟩]
     (by decide)
     (fun _ => (by decide : RestToGraphQL.executeGraphQL
        (.response 200 "OK" ⟨none, some [⟨"shop closed"⟩]⟩) =
          .error (.graphQL [⟨"shop closed"⟩]))),
   c2_protocol_error_over_http200.2.2.2.2 200 "OK" ⟨none, some [⟨"q failed"⟩]⟩
     [⟨"q failed"⟩] GraphQLToRest.alwaysOkRemote true none
     (by decide) (by decide) rfl (by decide)⟩

end Frankenstack

namespace Frankenstack.GraphQLToRest

/-- When every attempt fails with a retry-eligible error, the retry loop
performs all budgeted attempts and ends with the last attempt's error. -/
theorem retryLoop_all_retryable (op : Nat → RestFetchOutcome) (err : Nat → GRError)
    (h : ∀ i, executeRest (op i) = .error (err i) ∧ retryable (err i) = true) :
    ∀ (m start : Nat), retryLoop op start (m + 1) = (.error (some (err (start + m))), m + 1) := by
  intro m
  induction m with
  | zero =>
    intro start
    simp [retryLoop, (h start).1, (h start).2]
  | succ m2 ih =>
    intro start
    have hrec := ih (start + 1)
    have hidx : start + 1 + m2 = start + (m2 + 1) := by omega
    rw [hidx] at hrec
    rw [retryLoop, (h start).1, hrec]
    simp [(h start).2]

/-- A first-attempt error that is not retry-eligible propagates after a
single attempt. -/
theorem retryLoop_not_retryable (op : Nat → RestFetchOutcome) (e : GRError) (start m : Nat)
    (h1 : executeRest (op start) = .error e) (h2 : retryable e = false) :
    retryLoop op start (m + 1) = (.error (some e), 1) := by
  simp [retryLoop, h1, h2]

/-- A retry-eligible first-attempt error followed by a successful second
attempt stops after two attempts with the success value. -/
theorem retryLoop_retry_then_ok (op : Nat → RestFetchOutcome) (e : GRError) (r : RestBody)
    (m : Nat) (h1 : executeRest (op 0) = .error e) (h2 : retryable e = true)
    (h3 : executeRest (op 1) = .ok r) :
    retryLoop op 0 (m + 2) = (.ok r, 2) := by
  simp [retryLoop, h1, h2, h3]

/-- C3 counterexample: an operation that always fails with the
network-level TransportError — RestAPIError with status code 0 — is
attempted exactly once: the error propagates immediately instead of
being retried up to the attempt budget of 3, refuting that errors with
absent or network-level status are retried. -/
theorem c3_counterexample :
    executeRestWithRetry (fun _ => .networkFailure "socket hang up") 3 =
      (.error (some (.restAPI "REST request failed: socket hang up" 0 none)), 1) ∧
    ((executeRestWithRetry (fun _ => .networkFailure "socket hang up") 3).2 = 3 → False) := by
  decide

/-- C3 (amended): the retry policy retries only on RateLimitError and on
errors whose status code is 429 or at least 500; an error with no status
code or with the network-level status 0 — in particular a network-level
TransportError — propagates immediately after one attempt; and an
operation failing with a retry-eligible error such as a 503
TransportError on every attempt is attempted exactly maxAttempts times
with the final error being the last attempt's error, unchanged. -/
theorem c3_retry_eligibility_and_budget :
    (∀ (op : Nat → RestFetchOutcome) e m, executeRest (op 0) = .error e →
       retryable e = false → executeRestWithRetry op (m + 1) = (.error (some e), 1)) ∧
    (∀ (op : Nat → RestFetchOutcome) (err : Nat → GRError) m,
       (∀ i, executeRest (op i) = .error (err i) ∧ retryable (err i) = true) →
       executeRestWithRetry op (m + 1) = (.error (some (err m)), m + 1)) ∧
    (∀ (op : Nat → RestFetchOutcome) e r m, executeRest (op 0) = .error e →
       retryable e = true → executeRest (op 1) = .ok r →
       executeRestWithRetry op (m + 2) = (.ok r, 2)) ∧
    (∀ msg resp, retryable (.restAPI msg 0 resp) = false) ∧
    (∀ ra, retryable (.rateLimit ra) = true) ∧
    (∀ msg st resp, 500 ≤ st → retryable (.restAPI msg st resp) = true) ∧
    (∀ es, retryable (.graphQL es) = false) := by
  refine ⟨?_, ?_, ?_, ?_, ?_, ?_, ?_⟩
  · intro op e m h1 h2
    exact retryLoop_not_retryable op e 0 m h1 h2
  · intro op err m h
    have hall := retryLoop_all_retryable op err h m 0
    simpa [executeRestWithRetry] using hall
  · intro op e r m h1 h2 h3
    exact retryLoop_retry_then_ok op e r m h1 h2 h3
  · intro msg resp; rfl
  · intro ra; rfl
  · intro msg st resp h
    simp [retryable, h]
  · intro es; rfl

/-- Witness for c3_retry_eligibility_and_budget: a 404 client error is
attempted once, a remote answering 503 on every attempt is attempted
exactly 3 times keeping the last error, and a rate-limited first attempt
followed by success stops after 2 attempts. -/
theorem c3_retry_eligibility_and_budget_witness :
    executeRestWithRetry (fun _ => .response 404 "Not Found" none ⟨some "missing", ""⟩) 3 =
      (.error (some (.restAPI "missing" 404 (some ⟨some "missing", ""⟩))), 1) ∧
    executeRestWithRetry (fun _ => .response 503 "Service Unavailable" none ⟨none, ""⟩) 3 =
      (.error (some (.restAPI "HTTP 503: Service Unavailable" 503 (some ⟨none, ""⟩))), 3) ∧
    executeRestWithRetry
      (fun i => if i = 0 then .response 429 "Too Many Requests" (some "2") ⟨none, ""⟩
                else .response 200 "OK" none ⟨none, "ok"⟩) 3 =
      (.ok ⟨none, "ok"⟩, 2) :=
  ⟨c3_retry_eligibility_and_budget.1
     (fun _ => .response 404 "Not Found" none ⟨some "missing", ""⟩)
     (.restAPI "missing" 404 (some ⟨some "missing", ""⟩)) 2 (by decide) (by decide),
   by
     have h := c3_retry_eligibility_and_budget.2.1
       (fun _ => .response 503 "Service Unavailable" none ⟨none, ""⟩)
       (fun _ => .restAPI "HTTP 503: Service Unavailable" 503 (some ⟨none, ""⟩)) 2
       (fun _ => ⟨(by decide :
            executeRest (.response 503 "Service Unavailable" none ⟨none, ""⟩) =
              .error (.restAPI "HTTP 503: Service Unavailable" 503 (some ⟨none, ""⟩))),
          (by decide :
            retryable (.restAPI "HTTP 503: Service Unavailable" 503 (some ⟨none, ""⟩)) = true)⟩)
     simpa using h,
   c3_retry_eligibility_and_budget.2.2.1
     (fun i => if i = 0 then .response 429 "Too Many Requests" (some "2") ⟨none, ""⟩
               else .response 200 "OK" none ⟨none, "ok"⟩)
     (.rateLimit (some 2)) ⟨none, "ok"⟩ 1 (by decide) (by decide) (by decide)⟩

end Frankenstack.GraphQLToRest

namespace Frankenstack.GraphQLToRest

/-- The outcome list of the batching loop is the per-item map of the
input for every counter value: one outcome per input item, in input
order, independent of per-item failures. -/
theorem batchAux_fst {α β : Type} (f : α → β) (g : Nat) :
    ∀ (l : List α) (k : Nat), (batchAux f g l k).1 = l.map f := by
  intro l
  induction l with
  | nil => intro k; rfl
  | cons x xs ih =>
    intro k
    cases k with
    | zero => simp [batchAux, ih]
    | succ k2 => simp [batchAux, ih]

/-- Sleep count of the batching loop: zero when the remaining items fit
the open slots of the current group, else one sleep per later group
boundary. -/
theorem batchAux_snd {α β : Type} (f : α → β) (g : Nat) (hg : 1 ≤ g) :
    ∀ (l : List α) (k : Nat),
      (batchAux f g l k).2 = if l.length ≤ k then 0 else (l.length - k - 1) / g + 1 := by
  intro l
  induction l with
  | nil => intro k; simp [batchAux]
  | cons x xs ih =>
    intro k
    cases k with
    | zero =>
      simp only [batchAux, ih (g - 1), List.length_cons]
      rw [if_neg (by omega : ¬ (xs.length + 1 ≤ 0))]
      have hlen : xs.length + 1 - 0 - 1 = xs.length := by omega
      rw [hlen]
      by_cases hle : xs.length ≤ g - 1
      · rw [if_pos hle, Nat.div_eq_of_lt (by omega : xs.length < g)]
      · rw [if_neg hle]
        have he : xs.length - (g - 1) - 1 = xs.length - g := by omega
        rw [he]
        conv_rhs => rw [show xs.length = xs.length - g + g by omega,
                        Nat.add_div_right _ (by omega : 0 < g)]
        generalize (xs.length - g) / g = A
        omega
    | succ k2 =>
      simp only [batchAux, ih k2, List.length_cons]
      have he : xs.length + 1 - (k2 + 1) - 1 = xs.length - k2 - 1 := by omega
      rw [he]
      by_cases hle : xs.length ≤ k2
      · rw [if_pos hle, if_pos (by omega : xs.length + 1 ≤ k2 + 1)]
      · rw [if_neg hle, if_neg (by omega : ¬ (xs.length + 1 ≤ k2 + 1))]

/-- Sleep count of the batching loop from the top: for a positive group
size g, exactly (length - 1) / g sleeps in total — none before the first
group, none after the last, one between consecutive groups. -/
theorem batchLoop_sleeps {α β : Type} (f : α → β) (g : Nat) (hg : 1 ≤ g) (l : List α) :
    (batchLoop f g l).2 = (l.length - 1) / g := by
  unfold batchLoop
  rw [batchAux_snd f g hg]
  by_cases hle : l.length ≤ g
  · rw [if_pos hle, Nat.div_eq_of_lt (by omega : l.length - 1 < g)]
  · rw [if_neg hle]
    have he : l.length - g - 1 = l.length - 1 - g := by omega
    rw [he]
    conv_rhs => rw [show l.length - 1 = l.length - 1 - g + g by omega,
                    Nat.add_div_right _ (by omega : 0 < g)]

/-- The effective batch size is always positive: an absent or zero
configured size falls back to 5. -/
theorem effectiveBatchSize_pos (cfg : Option Nat) : 1 ≤ effectiveBatchSize cfg := by
  cases cfg with
  | none => decide
  | some n =>
    by_cases h : n = 0
    · rw [show effectiveBatchSize (some n) = 5 by simp [effectiveBatchSize, h]]
      omega
    · rw [show effectiveBatchSize (some n) = n by simp [effectiveBatchSize, h]]
      omega

/-- C4: the batch coordinator produces one outcome per input item with
output order matching input order (the outcome list is the per-item map
over the items), a failing item yields a success false outcome without
aborting sibling or later items, and it sleeps only between consecutive
groups of the effective batch size — (length - 1) / batchSize sleeps in
total, never before the first group or after the last, so a 7-item input
with batchSize 3 sleeps exactly twice. -/
theorem c4_batch_coordinator :
    (∀ restRemote cfg (items : List ParsedProduct),
       (processBatch restRemote cfg items).1 = items.map (batchItemOutcome restRemote)) ∧
    (∀ restRemote cfg (items : List ParsedProduct),
       (processBatch restRemote cfg items).2 =
         (items.length - 1) / effectiveBatchSize cfg) ∧
    (∀ restRemote (items : List ParsedProduct), items.length = 7 →
       (processBatch restRemote (some 3) items).2 = 2) ∧
    (∀ restRemote item e n,
       executeRestWithRetry (restRemote (transformShopifyToStripe item)) 3 =
         (.error (some e), n) →
       batchItemOutcome restRemote item =
         ⟨false, none, some (errorMessage e), item.product.title⟩) ∧
    (∀ restRemote item r n,
       executeRestWithRetry (restRemote (transformShopifyToStripe item)) 3 = (.ok r, n) →
       batchItemOutcome restRemote item = ⟨true, some r, none, item.product.title⟩) := by
  refine ⟨?_, ?_, ?_, ?_, ?_⟩
  · intro restRemote cfg items
    exact batchAux_fst (batchItemOutcome restRemote) (effectiveBatchSize cfg) items _
  · intro restRemote cfg items
    exact batchLoop_sleeps (batchItemOutcome restRemote) (effectiveBatchSize cfg)
      (effectiveBatchSize_pos cfg) items
  · intro restRemote items hlen
    have h := batchLoop_sleeps (batchItemOutcome restRemote) (effectiveBatchSize (some 3))
      (effectiveBatchSize_pos (some 3)) items
    rw [hlen] at h
    exact h.trans (by norm_num [effectiveBatchSize])
  · intro restRemote item e n h
    unfold batchItemOutcome
    dsimp only
    rw [h]
    simp [errorMessageOpt]
  · intro restRemote item r n h
    unfold batchItemOutcome
    dsimp only
    rw [h]

/-- Witness for c4_batch_coordinator: seven concrete items with batch
size 3, where the remote rejects the second item and accepts the rest;
the outcome list maps the items in order, exactly two sleeps occur, the
failing item yields a success false outcome, and its siblings still
succeed. -/
theorem c4_batch_coordinator_witness :
    (processBatch gadgetRejectingRemote (some 3) sevenItems).1 =
      sevenItems.map (batchItemOutcome gadgetRejectingRemote) ∧
    (processBatch gadgetRejectingRemote (some 3) sevenItems).2 = 2 ∧
    batchItemOutcome gadgetRejectingRemote sampleItemB =
      ⟨false, none, some "invalid product", some "Gadget"⟩ ∧
    batchItemOutcome gadgetRejectingRemote sampleItem =
      ⟨true, some ⟨none, "ok"⟩, none, some "Widget"⟩ ∧
    (processBatch gadgetRejectingRemote (some 3) sevenItems).1.map (fun o => o.success) =
      [true, false, true, true, true, true, true] :=
  ⟨c4_batch_coordinator.1 gadgetRejectingRemote (some 3) sevenItems,
   c4_batch_coordinator.2.2.1 gadgetRejectingRemote sevenItems (by decide),
   c4_batch_coordinator.2.2.2.1 gadgetRejectingRemote sampleItemB
     (.restAPI "invalid product" 400 (some ⟨some "invalid product", ""⟩)) 1 (by decide),
   c4_batch_coordinator.2.2.2.2 gadgetRejectingRemote sampleItem ⟨none, "ok"⟩ 1 (by decide),
   by decide⟩

end Frankenstack.GraphQLToRest

namespace Frankenstack.GraphQLToRest

/-- C6 counterexample: an HTTP 429 response whose retry-after header is
the non-numeric string abc produces a RateLimitError whose retryAfter is
NaN (modelled none), not the claimed default of 5 seconds. -/
theorem c6_counterexample :
    executeRest (.response 429 "Too Many Requests" (some "abc") ⟨none, ""⟩) =
      .error (.rateLimit none) ∧
    (executeRest (.response 429 "Too Many Requests" (some "abc") ⟨none, ""⟩) =
      .error (.rateLimit (some 5)) → False) := by
  decide

/-- C6 (amended): every HTTP 429 response raises RateLimitError, never a
plain RestAPIError; retryAfterSeconds is 5 when the retry-after header
is absent or empty, and otherwise the parseInt value of the header — the
parsed integer for a numeric header, but NaN rather than 5 for a
non-numeric one. -/
theorem c6_rate_limit_retry_after :
    (∀ statusText hdr (body : RestBody), ∃ ra,
       executeRest (.response 429 statusText hdr body) = .error (.rateLimit ra)) ∧
    (∀ statusText (body : RestBody),
       executeRest (.response 429 statusText none body) = .error (.rateLimit (some 5))) ∧
    (∀ statusText (body : RestBody),
       executeRest (.response 429 statusText (some "") body) = .error (.rateLimit (some 5))) ∧
    (∀ statusText hdr (body : RestBody), hdr ≠ "" →
       executeRest (.response 429 statusText (some hdr) body) =
         .error (.rateLimit (parseIntJS hdr))) := by
  have h5 : parseIntJS "5" = some 5 := by decide
  refine ⟨?_, ?_, ?_, ?_⟩
  · intro statusText hdr body
    exact ⟨parseIntJS (jsOr hdr "5"), by simp [executeRest]⟩
  · intro statusText body
    simp [executeRest, jsOr, h5]
  · intro statusText body
    simp [executeRest, jsOr, h5]
  · intro statusText hdr body hne
    simp [executeRest, jsOr, hne]

/-- Witness for c6_rate_limit_retry_after: a 429 without the header
defaults to 5 seconds, and one with the numeric header 12 parses it. -/
theorem c6_rate_limit_retry_after_witness :
    executeRest (.response 429 "Too Many Requests" none ⟨none, ""⟩) =
      .error (.rateLimit (some 5)) ∧
    executeRest (.response 429 "Too Many Requests" (some "12") ⟨none, ""⟩) =
      .error (.rateLimit (some 12)) :=
  ⟨c6_rate_limit_retry_after.2.1 "Too Many Requests" ⟨none, ""⟩,
   by
     have h := c6_rate_limit_retry_after.2.2.2 "Too Many Requests" "12" ⟨none, ""⟩ (by decide)
     rw [h]
     decide⟩

end Frankenstack.GraphQLToRest
